import Mathlib

/-!
Verification development for the alert correlation engine of PreTech-NIDS
(app/alert_system.py).  The Python class AlertManager is shallowly embedded:
its mutable per-IP counters and histories become explicit state records,
Python dicts become association lists or total functions with default values,
datetimes become integer second counts, and floats become rationals.
Fields that no theorem touches (human-readable titles and messages,
acknowledgment bookkeeping, websocket plumbing) are omitted and noted in the
doc comment of the corresponding definition.
-/

namespace PreTechNIDS

/-- Alert severity levels (class AlertLevel in alert_system.py). -/
inductive AlertLevel where
  | critical
  | high
  | medium
  | low
  | info
deriving DecidableEq, Repr

/-- Types of alerts (class AlertType in alert_system.py). -/
inductive AlertType where
  | threatDetected
  | anomalyDetected
  | multipleAttacks
  | suspiciousIp
  | highRiskPort
  | zeroDayAttack
  | bruteForce
  | systemOverload
deriving DecidableEq, Repr

/-- A raw prediction value.  The source compares the prediction against both
the string "Attack" and the integer 1 (prediction in ['Attack', 1]), so the
embedding keeps both shapes. -/
inductive PredVal where
  | str : String → PredVal
  | int : Int → PredVal
deriving DecidableEq, Repr

/-- The check prediction in ['Attack', 1] from process_detection_result. -/
def isAttackPred : PredVal → Bool
  | .str s => s = "Attack"
  | .int n => n = 1

/-- The conditions dict of an AlertRule.  Every key that appears in the
source's default rules or in _check_rule_conditions is a field; a missing
dict key is the value none. -/
structure Conditions where
  prediction : Option PredVal := none
  model : Option String := none
  min_confidence : Option ℚ := none
  ports : Option (List Nat) := none
  same_ip_count : Option Nat := none
  repeat_count : Option Nat := none
  ports_scanned : Option Nat := none
  time_window : Option Nat := none
  unique_ips : Option Nat := none
  connection_rate : Option Nat := none
  country : Option (List String) := none
  malware_signature : Option Bool := none
  ransomware_behavior : Option Bool := none
  outbound_data_mb : Option Nat := none
  privilege_escalation : Option Bool := none
  lateral_movement : Option Bool := none
  phishing_signature : Option Bool := none
  internal_scan : Option Bool := none
  unauthorized_access : Option Bool := none
deriving DecidableEq, Repr

/-- Alert rule configuration (dataclass AlertRule).  The created_at and
updated_at wall-clock strings are omitted: no claim depends on them. -/
structure AlertRule where
  id : String
  name : String := ""
  description : String := ""
  alert_type : AlertType
  conditions : Conditions := {}
  actions : List String := []
  enabled : Bool := true
  threshold : Option ℚ := none
  time_window : Option Nat := none
deriving DecidableEq, Repr

/-- Alert data structure (dataclass Alert).  Timestamps are integer seconds
(the source stores ISO strings of beijing time and parses them back for the
dedup check).  The title and message strings, the acknowledged and resolved
bookkeeping fields, and the free-form threat_details dict are omitted except
for the ports_scanned list that the port-scan aggregator stores in
threat_details. -/
structure Alert where
  id : String
  rule_id : String
  alert_type : AlertType
  level : AlertLevel
  source_ip : Option String := none
  destination_ip : Option String := none
  target_port : Option Nat := none
  protocol : Option String := none
  model : Option String := none
  confidence : Option ℚ := none
  ports_scanned : Option (List Nat) := none
  timestamp : Int := 0
  attack_type : Option String := none
deriving DecidableEq, Repr

/-- The model-result dict carried inside a detection event
(result = detection_data.get('result', {})).  label stands for the
'Label' key. -/
structure ModelResult where
  model : Option String := none
  prediction : Option PredVal := none
  probability : Option ℚ := none
  anomaly_score : Option ℚ := none
  threshold : Option ℚ := none
  tcp_flags : Option String := none
  attack_type : Option String := none
  label : Option String := none
deriving DecidableEq, Repr

/-- A detection event (the detection_data dict passed to
process_detection_result).  dtype stands for the 'type' key. -/
structure DetectionData where
  src_ip : Option String := none
  dst_ip : Option String := none
  destination_ip : Option String := none
  dst_port : Option Nat := none
  target_port : Option Nat := none
  protocol : Option String := none
  interface : Option String := none
  attack_type : Option String := none
  dtype : String := "unknown"
  features : List ℚ := []
  result : ModelResult := {}
deriving DecidableEq, Repr

/-- Python string-or: a or b where the empty string and None are falsy. -/
def pyOrStr (a b : Option String) : Option String :=
  match a with
  | some s => if s = "" then b else some s
  | none => b

/-- Python port-or: a or b where 0 and None are falsy. -/
def pyOrPort (a b : Option Nat) : Option Nat :=
  match a with
  | some n => if n = 0 then b else some n
  | none => b

/-- Python truthiness of an optional string (None and "" are falsy). -/
def truthyStr : Option String → Bool
  | some s => s ≠ ""
  | none => false

/-- deque(maxlen := cap): append on the right, evict from the left once the
capacity is exceeded. -/
def dequeAppend (cap : Nat) (xs : List α) (x : α) : List α :=
  let ys := xs ++ [x]
  if cap < ys.length then ys.drop (ys.length - cap) else ys

/-- The most recent n entries of a list whose newest element is last
(list(deque)[-n:]). -/
def lastN (n : Nat) (xs : List α) : List α :=
  xs.drop (xs.length - n)

/-- Python-dict assignment on an association list: overwriting an existing
key keeps its position, a new key is appended. -/
def dictInsert [DecidableEq κ] (m : List (κ × ν)) (k : κ) (v : ν) : List (κ × ν) :=
  if m.any (fun p => p.1 = k) then
    m.map (fun p => if p.1 = k then (k, v) else p)
  else m ++ [(k, v)]

/-- Python-dict lookup (dict.get) on an association list. -/
def dictGet [DecidableEq κ] (m : List (κ × ν)) (k : κ) : Option ν :=
  (m.find? (fun p => p.1 = k)).map Prod.snd

/-- Pointwise update of a total map (defaultdict mutation). -/
def updFn [DecidableEq κ] (f : κ → ν) (k : κ) (v : ν) : κ → ν :=
  fun x => if x = k then v else f x

/-- Method _extract_source_ip: it ignores the event's src_ip field entirely;
when an interface name other than "unknown" is present it fabricates a
random 192.168.x.y address, else it returns None.  randIp stands for the
address the random number generator would produce on this call. -/
def extractSourceIp (interface : Option String) (randIp : String) : Option String :=
  if interface.getD "unknown" ≠ "unknown" then some randIp else none

/-- Method _extract_target_port: features[2] truncated to an integer when
positive, requiring at least 3 features.  Note int(features[2]) can be 0
when 0 < features[2] < 1, so some 0 is a possible result. -/
def extractTargetPort (features : List ℚ) : Option Nat :=
  match features with
  | _ :: _ :: c :: _ => if 0 < c then some (Int.toNat ⌊c⌋) else none
  | _ => none

/-- Method _get_model_threshold: prefer the threshold carried in the model
result, else the per-model cached threshold, else None.  An empty model
name is falsy in Python and skips the cache lookup. -/
def getModelThreshold (modelThresholds : List (String × ℚ)) (r : ModelResult) : Option ℚ :=
  match r.threshold with
  | some t => some t
  | none =>
    match r.model with
    | some m => if m ≠ "" then dictGet modelThresholds m else none
    | none => none

/-- The guard `if threshold and threshold > 0` of _calculate_confidence:
the ratio-based bands are used only when a strictly positive threshold is
known (0.0 is falsy in Python, and a negative threshold fails the > 0 test). -/
def positiveThreshold (modelThresholds : List (String × ℚ)) (r : ModelResult) : Option ℚ :=
  match getModelThreshold modelThresholds r with
  | some th => if 0 < th then some th else none
  | none => none

/-- Method _calculate_confidence: ratio-based band mapping against the model
threshold, falling back to absolute bands when no positive threshold is
known, and to the fixed 0.6 when the result has neither a probability nor
an anomaly score. -/
def calculateConfidence (modelThresholds : List (String × ℚ)) (r : ModelResult) : ℚ :=
  match r.probability with
  | some prob =>
    (match positiveThreshold modelThresholds r with
     | some th =>
       if 5 < prob / th then 0.95
       else if 2 < prob / th then 0.85
       else if 1 < prob / th then 0.70
       else 0.60
     | none =>
       if 0.95 ≤ prob then 0.95
       else if 0.85 ≤ prob then 0.85
       else if 0.70 ≤ prob then 0.70
       else 0.60)
  | none =>
    match r.anomaly_score with
    | some score =>
      (match positiveThreshold modelThresholds r with
       | some th =>
         if 5 < score / th then 0.95
         else if 2 < score / th then 0.85
         else if 1 < score / th then 0.75
         else if 0.5 < score / th then 0.65
         else 0.55
       | none =>
         if 10000 < score then 0.95
         else if 1000 < score then 0.85
         else if 100 < score then 0.75
         else if 10 < score then 0.65
         else 0.55)
    | none => 0.6

/-- Method _check_rule_conditions.  Conjunction of the checks in source
order: prediction, model, min_confidence, rule-level threshold, ports,
same_ip_count, repeat_count.  The ports check uses _extract_target_port on
the features (not the event's dst_port), and the same_ip_count check calls
_extract_source_ip afresh (randIp stands for the random address that call
would fabricate).  A port of 0 or an empty source string is falsy in Python
and skips the corresponding counter comparison. -/
def checkRuleConditions (modelThresholds : List (String × ℚ))
    (ip_alert_counts : String → Nat) (port_alert_counts : Nat → Nat)
    (rule : AlertRule) (dd : DetectionData) (result : ModelResult)
    (features : List ℚ) (randIp : String) : Bool :=
  (match rule.conditions.prediction with
   | some p => result.prediction = some p
   | none => true) &&
  (match rule.conditions.model with
   | some m => result.model = some m
   | none => true) &&
  (match rule.conditions.min_confidence with
   | some mc => mc ≤ calculateConfidence modelThresholds result
   | none => true) &&
  (match rule.threshold with
   | some th => th ≤ calculateConfidence modelThresholds result
   | none => true) &&
  (match rule.conditions.ports with
   | some ps =>
     (match extractTargetPort features with
      | some tp => tp ∈ ps
      | none => false)
   | none => true) &&
  (match rule.conditions.same_ip_count with
   | some n =>
     (match extractSourceIp dd.interface randIp with
      | some ip => if ip = "" then true else n ≤ ip_alert_counts ip
      | none => true)
   | none => true) &&
  (match rule.conditions.repeat_count with
   | some n =>
     (match extractTargetPort features with
      | some tp => if tp = 0 then true else n ≤ port_alert_counts tp
      | none => true)
   | none => true)

/-- Severity tier assignment of _create_alert (lines 742-749): confidence
at least 0.9 or a ZeroDayAttack rule gives critical, then 0.8 gives high,
then 0.6 gives medium, else low. -/
def alertLevelFor (rule_alert_type : AlertType) (confidence : ℚ) : AlertLevel :=
  if 0.9 ≤ confidence ∨ rule_alert_type = AlertType.zeroDayAttack then AlertLevel.critical
  else if 0.8 ≤ confidence then AlertLevel.high
  else if 0.6 ≤ confidence then AlertLevel.medium
  else AlertLevel.low

/-- Method _create_alert: builds the Alert for a matched rule.  Title,
message and the threat_details dict are omitted (see the Alert structure). -/
def createAlert (rule : AlertRule) (result : ModelResult)
    (source_ip destination_ip : Option String) (target_port : Option Nat)
    (protocol : Option String) (confidence : ℚ) (attack_type : Option String)
    (alert_id : String) (now : Int) : Alert :=
  { id := alert_id
    rule_id := rule.id
    alert_type := rule.alert_type
    level := alertLevelFor rule.alert_type confidence
    source_ip := source_ip
    destination_ip := destination_ip
    target_port := target_port
    protocol := protocol
    model := some (result.model.getD "Unknown")
    confidence := some confidence
    timestamp := now
    attack_type := attack_type }

/-- The ordered first-match port table of process_detection_result
(lines 434-506) that labels an attack from its destination port, the SYN
flag override, and the trailing port-scan fallback.  histLen is
len(ip_port_history[source_ip]) measured after the current event's entry
was appended. -/
def portAttackType (protocol : String) (target_port : Nat)
    (tcp_flags : Option String) (histLen : Nat) : Option String :=
  if target_port ∈ [22, 2222, 2200, 2022] then some "SSH Brute Force"
  else if target_port ∈ [80, 443, 8080, 8180, 8009, 8443] then some "Tomcat"
  else if target_port ∈ [4444, 4445, 5555, 6666, 7777, 8888, 9999] then some "Reverse Shell"
  else if target_port ∈ [21, 6200, 31337, 12345, 54321] then some "Backdoor"
  else if target_port ∈ [3389, 3388, 3390] then some "RDP Brute Force"
  else if target_port ∈ [23, 2323, 2300] then some "Telnet Brute Force"
  else if target_port ∈ [5900, 5901, 5902, 5903, 5904, 5905] then some "VNC Attack"
  else if target_port ∈ [1433, 3306, 5432, 1521, 27017, 6379] then some "Database Attack"
  else if target_port ∈ [25, 110, 143, 993, 995, 587, 465] then some "Mail Server Attack"
  else if target_port ∈ [53, 5353] then some "DNS Attack"
  else if target_port ∈ [139, 445, 135] then some "SMB Attack"
  else if target_port ∈ [8081, 8082, 8083, 8084, 8085, 8086, 8087, 8088, 8089, 8090, 8443, 9443] then
    some "Web Attack"
  else if target_port ∈ [1337, 31337, 12345, 54321, 6666, 6667, 6668, 6669, 7000, 7001, 7002] then
    some "Malware C2"
  else if target_port ∈ [80, 443, 8000, 8001, 8002, 8003, 8004, 8005, 8006, 8007, 8008, 8009, 8010] then
    some "Phishing Attack"
  else if target_port ∈ [443, 8443, 9443, 10443, 11443, 12443, 13443, 14443, 15443] then
    some "Ransomware"
  else if target_port ∈ [3333, 4444, 5555, 7777, 8888, 9999, 14444, 15555, 16666, 17777, 18888, 19999] then
    some "Crypto Mining"
  else if target_port ∈ [1883, 8883, 5683, 5684, 1884, 1885, 1886, 1887, 1888, 1889, 1890] then
    some "IoT Attack"
  else if target_port ∈ [502, 503, 504, 102, 44818, 47808, 20000, 20001, 20002, 20003, 20004, 20005] then
    some "ICS Attack"
  else if target_port ∈ [2049, 111, 2048, 2047, 2046, 2045, 2044, 2043, 2042, 2041, 2040] then
    some "File Sharing Attack"
  else if target_port ∈ [3389, 3388, 3390, 3391, 3392, 3393, 3394, 3395, 3396, 3397, 3398, 3399] then
    some "Remote Access Attack"
  else if target_port ∈ [25565, 25566, 25567, 25568, 25569, 25570, 7777, 7778, 7779, 7780, 7781] then
    some "Gaming C2"
  else if target_port ∈ [9000, 9001, 9002, 9003, 9004, 9005, 9006, 9007, 9008, 9009, 9010] then
    some "Custom App Attack"
  else if protocol = "TCP" ∧ target_port ≠ 0 ∧ tcp_flags = some "SYNONLY" then some "SYN Flood"
  else if target_port ≠ 0 ∧ 5 < histLen then some "Port Scan"
  else none

/-- The guard around the port table (line 434): the heuristics run only when
no attack type was supplied (None or the falsy empty string) and the
protocol is TCP or UDP; when the table yields nothing the incoming value is
kept. -/
def deriveAttackType (attack_type0 : Option String) (protocol : Option String)
    (target_port : Nat) (tcp_flags : Option String) (histLen : Nat) : Option String :=
  if (attack_type0 = none ∨ attack_type0 = some "") ∧
      (protocol = some "TCP" ∨ protocol = some "UDP") then
    match portAttackType (protocol.getD "") target_port tcp_flags histLen with
    | some t => some t
    | none => attack_type0
  else attack_type0

/-- The AlertManager's mutable behavioral state: the four defaultdicts
alert_counts, ip_alert_counts, port_alert_counts and ip_port_history
(the last maps each source IP to its deque of (port, time) pairs,
maxlen 20). -/
structure TrackerState where
  alert_counts : String → Nat := fun _ => 0
  ip_alert_counts : String → Nat := fun _ => 0
  port_alert_counts : Nat → Nat := fun _ => 0
  ip_port_history : String → List (Nat × Int) := fun _ => []

/-- Method _check_port_scan_rule: counts the distinct ports the source IP
touched within the trailing 10-second window; at 10 or more it synthesizes
the rule-based port-scan Alert and clears that IP's history.  When the
source IP resolves to None the source indexes ip_port_history with the None
key, whose deque is always empty (nothing ever appends under a falsy IP),
so that case is a no-op.  alert_id stands for the fresh uuid4. -/
def checkPortScanRule (st : TrackerState) (dd : DetectionData)
    (source_ip destination_ip protocol : Option String) (now : Int)
    (randIp alert_id : String) : TrackerState × Option Alert :=
  match pyOrStr source_ip (extractSourceIp dd.interface randIp) with
  | none => (st, none)
  | some ip =>
    let port_history := st.ip_port_history ip
    let recent_ports := (port_history.filter (fun pt => now - pt.2 ≤ 10)).map Prod.fst
    let unique_ports := recent_ports.dedup
    if 10 ≤ unique_ports.length then
      ({ st with ip_port_history := updFn st.ip_port_history ip [] },
       some { id := alert_id
              rule_id := "port_scan_rule"
              alert_type := AlertType.anomalyDetected
              level := AlertLevel.high
              source_ip := some ip
              destination_ip := destination_ip
              target_port := none
              protocol := protocol
              model := some "Rule-based"
              confidence := some 1
              ports_scanned := some unique_ports
              timestamp := now
              attack_type := some "Port Scan" })
    else (st, none)

/-- Method process_detection_result, restricted to its effect on the
behavioral state and to which alerts arise: it returns the new state, the
enabled rules whose conditions matched (each of which the source turns into
an alert via _create_alert and _process_alert), and the aggregator's
port-scan alert if one fired.  now is the wall clock of this call, randIp
the address _extract_source_ip would fabricate, psId the uuid4 for a
port-scan alert.  On the attack path the counters and the port history are
updated before the rule loop and before the port-scan check; on the
non-attack path the port-scan check runs first and the history is appended
afterwards. -/
def processDetectionResult (rules : List AlertRule)
    (modelThresholds : List (String × ℚ)) (st : TrackerState)
    (dd : DetectionData) (now : Int) (randIp psId : String) :
    TrackerState × List AlertRule × Option Alert :=
  let result := dd.result
  let features := dd.features
  let prediction := result.prediction.getD (PredVal.str "Normal")
  let source_ip := pyOrStr dd.src_ip (extractSourceIp dd.interface randIp)
  let destination_ip := pyOrStr dd.dst_ip dd.destination_ip
  let target_port := pyOrPort dd.dst_port (pyOrPort dd.target_port (extractTargetPort features))
  if isAttackPred prediction then
    let st1 :=
      match source_ip with
      | some ip =>
        if ip = "" then st
        else { st with ip_alert_counts := updFn st.ip_alert_counts ip (st.ip_alert_counts ip + 1) }
      | none => st
    let st2 :=
      match target_port with
      | some p =>
        if p = 0 then st1
        else { st1 with port_alert_counts := updFn st1.port_alert_counts p (st1.port_alert_counts p + 1) }
      | none => st1
    let st3 :=
      match source_ip, target_port with
      | some ip, some p =>
        if ip ≠ "" ∧ p ≠ 0 then
          { st2 with ip_port_history := updFn st2.ip_port_history ip (dequeAppend 20 (st2.ip_port_history ip) (p, now)) }
        else st2
      | _, _ => st2
    let matched := rules.filter (fun r =>
      r.enabled && checkRuleConditions modelThresholds st3.ip_alert_counts
        st3.port_alert_counts r dd result features randIp)
    let out := checkPortScanRule st3 dd source_ip destination_ip dd.protocol now randIp psId
    (out.1, matched, out.2)
  else
    let out := checkPortScanRule st dd source_ip destination_ip dd.protocol now randIp psId
    let st2 :=
      match source_ip, target_port with
      | some ip, some p =>
        if ip ≠ "" ∧ p ≠ 0 then
          { out.1 with ip_port_history := updFn out.1.ip_port_history ip (dequeAppend 20 (out.1.ip_port_history ip) (p, now)) }
        else out.1
      | _, _ => out.1
    (st2, [], out.2)

/-- Runs process_detection_result over a list of (event, arrival time)
pairs in order, collecting the port-scan aggregator alerts that fired. -/
def runDetections (rules : List AlertRule) (modelThresholds : List (String × ℚ))
    (st : TrackerState) (events : List (DetectionData × Int))
    (randIp psId : String) : TrackerState × List Alert :=
  match events with
  | [] => (st, [])
  | ev :: rest =>
    let out := processDetectionResult rules modelThresholds st ev.1 ev.2 randIp psId
    let next := runDetections rules modelThresholds out.1 rest randIp psId
    (next.1, out.2.2.toList ++ next.2)

/-- An attack-classified event from the given source IP against the given
destination port, the shape the live pipeline hands to
process_detection_result. -/
def attackEvent (ip : String) (p : Nat) : DetectionData :=
  { src_ip := some ip
    dst_port := some p
    result := { prediction := some (PredVal.str "Attack") } }

/-- One iteration of the cleanup background task (_start_cleanup_task):
self.alert_counts.clear() every 5 minutes.  Only the alert_counts map is
touched. -/
def cleanupOnce (st : TrackerState) : TrackerState :=
  { st with alert_counts := fun _ => 0 }

/-- An alert_history_collection entry (only the fields every entry carries). -/
structure HistoryEntry where
  alert_id : String
  action : String
  timestamp : Int
deriving DecidableEq, Repr

/-- The dispatcher's state: the alert_rules dict, the recent_alerts ring
buffer (deque maxlen 1000) and the two persistent collections. -/
structure DispatchState where
  alert_rules : List (String × AlertRule) := []
  recent_alerts : List Alert := []
  db_alerts : List Alert := []
  db_history : List HistoryEntry := []

/-- The observable side effects of _execute_alert_actions: which alerts
were broadcast over websocket, which SECURITY ALERT warnings were logged
(recorded by alert id) and which email intents were logged (by alert id). -/
structure Effects where
  broadcasts : List Alert := []
  log_warnings : List String := []
  email_logs : List String := []
deriving DecidableEq, Repr

/-- Method _execute_alert_actions: scans the most recent 50 ring-buffer
entries, excluding the alert itself, for another alert with the same
source IP, alert type, level and model created less than 5 seconds before
now; if any exists the websocket broadcast is suppressed.  The log action
always emits its warning, store is a no-op (persistence already happened in
_process_alert) and email only logs intent.  now is the wall clock at
execution time. -/
def executeAlertActions (recent_alerts : List Alert) (now : Int)
    (alert : Alert) (actions : List String) : Effects :=
  let recent_same := (lastN 50 recent_alerts).filter (fun a =>
    a.id ≠ alert.id ∧ a.source_ip = alert.source_ip ∧
    a.alert_type = alert.alert_type ∧ a.level = alert.level ∧
    a.model = alert.model ∧ now - a.timestamp < 5)
  actions.foldl
    (fun eff action =>
      if action = "websocket" then
        if recent_same.isEmpty then { eff with broadcasts := eff.broadcasts ++ [alert] } else eff
      else if action = "log" then { eff with log_warnings := eff.log_warnings ++ [alert.id] }
      else if action = "store" then eff
      else if action = "email" then { eff with email_logs := eff.email_logs ++ [alert.id] }
      else eff)
    {}

/-- Method _process_alert: appends the alert to the recent_alerts ring
buffer, persists it, appends a created history entry, then looks the
alert's rule_id up in alert_rules and executes that rule's actions; when
the lookup misses, no action runs at all. -/
def processAlert (st : DispatchState) (now : Int) (alert : Alert) :
    DispatchState × Effects :=
  let recent' := dequeAppend 1000 st.recent_alerts alert
  let st' : DispatchState :=
    { st with recent_alerts := recent'
              db_alerts := st.db_alerts ++ [alert]
              db_history := st.db_history ++ [{ alert_id := alert.id, action := "created", timestamp := now }] }
  match dictGet st.alert_rules alert.rule_id with
  | some rule => (st', executeAlertActions recent' now alert rule.actions)
  | none => (st', {})

/-- The built-in default rule set of _create_default_rules, in source
order.  The created_at and updated_at stamps the source assigns before
insertion are omitted (see AlertRule). -/
def defaultRules : List AlertRule :=
  [ { id := "threat_detection"
      name := "Threat Detection Alert"
      description := "Triggered when any ML model detects a threat"
      alert_type := AlertType.threatDetected
      conditions := { prediction := some (PredVal.str "Attack") }
      actions := ["websocket", "log", "store"]
      threshold := some 0.7 },
    { id := "high_confidence_threat"
      name := "High Confidence Threat"
      description := "Triggered for high-confidence threat detections"
      alert_type := AlertType.threatDetected
      conditions := { prediction := some (PredVal.str "Attack"), min_confidence := some 0.9 }
      actions := ["websocket", "log", "store", "email"]
      threshold := some 0.9 },
    { id := "multiple_attacks_same_ip"
      name := "Multiple Attacks from Same IP"
      description := "Multiple attacks detected from the same source IP"
      alert_type := AlertType.multipleAttacks
      conditions := { same_ip_count := some 5 }
      actions := ["websocket", "log", "store"]
      time_window := some 15 },
    { id := "suspicious_ports"
      name := "Suspicious Port Access"
      description := "Access to commonly attacked ports"
      alert_type := AlertType.highRiskPort
      conditions := { ports := some [22, 23, 80, 443, 8080, 8180, 8009, 3389, 445, 135, 21] }
      actions := ["websocket", "log", "store"] },
    { id := "zero_day_detection"
      name := "Zero-day Attack Detection"
      description := "Kitsune model detects potential zero-day attack"
      alert_type := AlertType.zeroDayAttack
      conditions := { model := some "Kitsune", prediction := some (PredVal.str "Attack") }
      actions := ["websocket", "log", "store", "email"]
      threshold := some 0.02 },
    { id := "brute_force_detection"
      name := "Brute Force Attack"
      description := "Multiple failed login attempts detected"
      alert_type := AlertType.bruteForce
      conditions := { ports := some [22, 23, 3389, 21], repeat_count := some 5 }
      actions := ["websocket", "log", "store"]
      time_window := some 5 },
    { id := "ssh_brute_force_detection"
      name := "SSH Brute Force Attack"
      description := "SSH brute force attack detected on port 22"
      alert_type := AlertType.bruteForce
      conditions := { ports := some [22], repeat_count := some 3 }
      actions := ["websocket", "log", "store"]
      time_window := some 3 },
    { id := "port_scan_detection"
      name := "Port Scan Detected"
      description := "Multiple ports accessed from same IP in short time (possible scan)"
      alert_type := AlertType.anomalyDetected
      conditions := { ports_scanned := some 10, time_window := some 2 }
      actions := ["websocket", "log", "store"] },
    { id := "ddos_detection"
      name := "DDoS Attack Detected"
      description := "High volume of connections from many IPs (possible DDoS)"
      alert_type := AlertType.anomalyDetected
      conditions := { unique_ips := some 50, connection_rate := some 1000, time_window := some 1 }
      actions := ["websocket", "log", "store", "email"] },
    { id := "suspicious_country"
      name := "Suspicious Country Source"
      description := "Traffic from high-risk or geo-blocked country"
      alert_type := AlertType.suspiciousIp
      conditions := { country := some ["RU", "CN", "KP", "IR", "SY"] }
      actions := ["websocket", "log", "store", "email"] },
    { id := "malware_traffic"
      name := "Malware Traffic Pattern"
      description := "Traffic matches known malware C2 pattern"
      alert_type := AlertType.threatDetected
      conditions := { malware_signature := some true }
      actions := ["websocket", "log", "store", "email"] },
    { id := "ransomware_behavior"
      name := "Ransomware Behavior"
      description := "Rapid file access and encryption pattern detected"
      alert_type := AlertType.anomalyDetected
      conditions := { ransomware_behavior := some true }
      actions := ["websocket", "log", "store", "email"] },
    { id := "data_exfiltration"
      name := "Data Exfiltration"
      description := "Large outbound data transfer detected"
      alert_type := AlertType.anomalyDetected
      conditions := { outbound_data_mb := some 100, time_window := some 5 }
      actions := ["websocket", "log", "store", "email"] },
    { id := "privilege_escalation"
      name := "Privilege Escalation Attempt"
      description := "Unusual privilege escalation detected"
      alert_type := AlertType.anomalyDetected
      conditions := { privilege_escalation := some true }
      actions := ["websocket", "log", "store", "email"] },
    { id := "lateral_movement"
      name := "Lateral Movement"
      description := "Suspicious lateral movement in network"
      alert_type := AlertType.anomalyDetected
      conditions := { lateral_movement := some true }
      actions := ["websocket", "log", "store", "email"] },
    { id := "phishing_attempt"
      name := "Phishing Attempt"
      description := "Traffic pattern matches known phishing campaign"
      alert_type := AlertType.threatDetected
      conditions := { phishing_signature := some true }
      actions := ["websocket", "log", "store", "email"] },
    { id := "internal_recon"
      name := "Internal Reconnaissance"
      description := "Internal host scanning other internal hosts"
      alert_type := AlertType.anomalyDetected
      conditions := { internal_scan := some true }
      actions := ["websocket", "log", "store"] },
    { id := "unauthorized_access"
      name := "Unauthorized Access Attempt"
      description := "Access to restricted resource detected"
      alert_type := AlertType.threatDetected
      conditions := { unauthorized_access := some true }
      actions := ["websocket", "log", "store", "email"] } ]

/-- Method _load_alert_rules: builds the alert_rules dict from the
enabled-rules query result; when that dict comes out empty it installs the
default rules, inserting each into the dict and writing each back to
persistent storage.  Returns the dict and the list of rules written back. -/
def loadAlertRules (dbRules : List AlertRule) :
    List (String × AlertRule) × List AlertRule :=
  let m := dbRules.foldl (fun m r => dictInsert m r.id r) []
  if m.isEmpty then
    (defaultRules.foldl (fun m r => dictInsert m r.id r) [], defaultRules)
  else (m, [])

/-- Endpoint create_alert_rule: overwrites the submitted rule's id with a
fresh uuid4 (here the parameter uuid) and inserts it under that id. -/
def createAlertRule (rules : List (String × AlertRule)) (rule : AlertRule)
    (uuid : String) : List (String × AlertRule) :=
  dictInsert rules uuid { rule with id := uuid }

/-- Method update_rule: when rule_id is present, merges the update into the
stored rule (upd stands for the setattr loop) and re-stores it under the
original key rule_id; a miss changes nothing. -/
def updateRule (rules : List (String × AlertRule)) (rule_id : String)
    (upd : AlertRule → AlertRule) : List (String × AlertRule) :=
  match dictGet rules rule_id with
  | some r => dictInsert rules rule_id (upd r)
  | none => rules

/-- Method delete_rule: removes the entry when present. -/
def deleteRule (rules : List (String × AlertRule)) (rule_id : String) :
    List (String × AlertRule) :=
  rules.filter (fun p => p.1 ≠ rule_id)

/-- The seven confidence values _calculate_confidence can return. -/
def confidenceBands : List ℚ := [0.55, 0.6, 0.65, 0.7, 0.75, 0.85, 0.95]

/-- A concrete default-style rule used by witness scenarios. -/
def sampleThreatRule : AlertRule :=
  { id := "threat_detection"
    alert_type := AlertType.threatDetected
    actions := ["websocket", "log", "store"] }

/-- A concrete dispatcher state holding only sampleThreatRule. -/
def sampleDispatchState : DispatchState :=
  { alert_rules := [("threat_detection", sampleThreatRule)] }

/-- A concrete aggregator-style alert used by witness scenarios. -/
def samplePortScanAlert : Alert :=
  { id := "P1"
    rule_id := "port_scan_rule"
    alert_type := AlertType.anomalyDetected
    level := AlertLevel.high }

/-! Helper lemmas about the container embeddings. -/

theorem dequeAppend_of_lt (cap : Nat) (xs : List α) (x : α)
    (h : xs.length < cap) : dequeAppend cap xs x = xs ++ [x] := by
  unfold dequeAppend
  rw [if_neg]
  simp only [List.length_append, List.length_cons, List.length_nil]
  omega

theorem lastN_of_le (n : Nat) (xs : List α) (h : xs.length ≤ n) :
    lastN n xs = xs := by
  unfold lastN
  have h0 : xs.length - n = 0 := by omega
  rw [h0, List.drop_zero]

theorem find_over_overwrite [DecidableEq κ] (m : List (κ × ν)) (k k' : κ)
    (v : ν) (hne : k' ≠ k) :
    List.find? (fun p => decide (p.1 = k')) (m.map (fun p => if p.1 = k then (k, v) else p)) =
    List.find? (fun p => decide (p.1 = k')) m := by
  induction m with
  | nil => rfl
  | cons hd tl ih =>
    by_cases hk : hd.1 = k
    · simp only [List.map_cons, if_pos hk, List.find?_cons]
      have h1 : (decide (k = k')) = false := by
        simp only [decide_eq_false_iff_not]
        exact fun hh => hne hh.symm
      have h2 : (decide (hd.1 = k')) = false := by
        simp only [decide_eq_false_iff_not]
        intro hh
        exact hne (hh ▸ hk : k' = k)
      rw [h1, h2]
      exact ih
    · simp only [List.map_cons, if_neg hk, List.find?_cons]
      cases hd1 : (decide (hd.1 = k')) <;> simp only []
      exact ih

theorem dictGet_dictInsert_ne [DecidableEq κ] (m : List (κ × ν)) (k k' : κ)
    (v : ν) (hne : k' ≠ k) : dictGet (dictInsert m k v) k' = dictGet m k' := by
  unfold dictInsert dictGet
  split
  · rw [find_over_overwrite m k k' v hne]
  · rw [List.find?_append]
    have h1 : List.find? (fun p => decide (p.1 = k')) [(k, v)] = none := by
      simp only [List.find?_cons, List.find?_nil]
      have : (decide (k = k')) = false := by
        simp only [decide_eq_false_iff_not]
        exact fun hh => hne hh.symm
      rw [this]
    rw [h1]
    cases List.find? (fun p => decide (p.1 = k')) m <;> rfl

theorem dictGet_none_of_forall [DecidableEq κ] (m : List (κ × ν)) (k : κ)
    (h : ∀ p ∈ m, p.1 ≠ k) : dictGet m k = none := by
  unfold dictGet
  rw [List.find?_eq_none.mpr]
  · rfl
  · intro p hp
    simp only [decide_eq_true_eq]
    exact h p hp

theorem forall_of_dictGet_none [DecidableEq κ] (m : List (κ × ν)) (k : κ)
    (h : dictGet m k = none) : ∀ p ∈ m, p.1 ≠ k := by
  intro p hp
  unfold dictGet at h
  rcases hf : List.find? (fun p => decide (p.1 = k)) m with _ | q
  · have := List.find?_eq_none.mp hf p hp
    simpa using this
  · rw [hf] at h
    simp at h

/-- C3: the Alert Factory assigns severity in priority order: confidence at
least 0.9 or a ZeroDayAttack rule category gives Critical; otherwise 0.8
gives High, 0.6 gives Medium, anything lower gives Low.  In particular a
ZeroDayAttack rule yields Critical even at confidence 0.5, and confidences
0.95, 0.85, 0.65 and 0.3 yield Critical, High, Medium and Low for any
non-ZeroDayAttack category. -/
theorem c3_alert_factory_severity :
    (∀ (ty : AlertType) (conf : ℚ), 0.9 ≤ conf ∨ ty = AlertType.zeroDayAttack →
      alertLevelFor ty conf = AlertLevel.critical)
    ∧ (∀ (ty : AlertType) (conf : ℚ), conf < 0.9 → ty ≠ AlertType.zeroDayAttack →
      0.8 ≤ conf → alertLevelFor ty conf = AlertLevel.high)
    ∧ (∀ (ty : AlertType) (conf : ℚ), conf < 0.8 → ty ≠ AlertType.zeroDayAttack →
      0.6 ≤ conf → alertLevelFor ty conf = AlertLevel.medium)
    ∧ (∀ (ty : AlertType) (conf : ℚ), conf < 0.6 → ty ≠ AlertType.zeroDayAttack →
      alertLevelFor ty conf = AlertLevel.low)
    ∧ (∀ ty : AlertType, ty ≠ AlertType.zeroDayAttack →
      alertLevelFor ty 0.95 = AlertLevel.critical ∧
      alertLevelFor ty 0.85 = AlertLevel.high ∧
      alertLevelFor ty 0.65 = AlertLevel.medium ∧
      alertLevelFor ty 0.3 = AlertLevel.low)
    ∧ alertLevelFor AlertType.zeroDayAttack 0.5 = AlertLevel.critical := by
  refine ⟨?_, ?_, ?_, ?_, ?_, ?_⟩
  · intro ty conf h
    unfold alertLevelFor
    rw [if_pos h]
  · intro ty conf h1 h2 h3
    have hnot : ¬(0.9 ≤ conf ∨ ty = AlertType.zeroDayAttack) := by
      rintro (h | h)
      · linarith
      · exact h2 h
    unfold alertLevelFor
    rw [if_neg hnot, if_pos h3]
  · intro ty conf h1 h2 h3
    have hnot : ¬(0.9 ≤ conf ∨ ty = AlertType.zeroDayAttack) := by
      rintro (h | h)
      · linarith
      · exact h2 h
    unfold alertLevelFor
    rw [if_neg hnot, if_neg (by linarith), if_pos h3]
  · intro ty conf h1 h2
    have hnot : ¬(0.9 ≤ conf ∨ ty = AlertType.zeroDayAttack) := by
      rintro (h | h)
      · linarith
      · exact h2 h
    unfold alertLevelFor
    rw [if_neg hnot, if_neg (by linarith), if_neg (by linarith)]
  · intro ty hne
    unfold alertLevelFor
    have h85 : ¬((0.9 : ℚ) ≤ 0.85 ∨ ty = AlertType.zeroDayAttack) := by
      push_neg
      exact ⟨by norm_num, hne⟩
    have h65 : ¬((0.9 : ℚ) ≤ 0.65 ∨ ty = AlertType.zeroDayAttack) := by
      push_neg
      exact ⟨by norm_num, hne⟩
    have h30 : ¬((0.9 : ℚ) ≤ 0.3 ∨ ty = AlertType.zeroDayAttack) := by
      push_neg
      exact ⟨by norm_num, hne⟩
    refine ⟨?_, ?_, ?_, ?_⟩
    · rw [if_pos (Or.inl (by norm_num))]
    · rw [if_neg h85, if_pos (by norm_num)]
    · rw [if_neg h65, if_neg (by norm_num), if_pos (by norm_num)]
    · rw [if_neg h30, if_neg (by norm_num), if_neg (by norm_num)]
  · unfold alertLevelFor
    rw [if_pos (Or.inr rfl)]

/-- Witness for C3 at concrete confidences and rule categories. -/
theorem c3_alert_factory_severity_witness :
    alertLevelFor AlertType.threatDetected 0.95 = AlertLevel.critical
    ∧ alertLevelFor AlertType.bruteForce 0.85 = AlertLevel.high
    ∧ alertLevelFor AlertType.anomalyDetected 0.65 = AlertLevel.medium
    ∧ alertLevelFor AlertType.multipleAttacks 0.3 = AlertLevel.low
    ∧ alertLevelFor AlertType.zeroDayAttack 0.5 = AlertLevel.critical :=
  ⟨c3_alert_factory_severity.1 AlertType.threatDetected 0.95 (Or.inl (by norm_num)),
   c3_alert_factory_severity.2.1 AlertType.bruteForce 0.85 (by norm_num)
     (by intro h; cases h) (by norm_num),
   c3_alert_factory_severity.2.2.1 AlertType.anomalyDetected 0.65 (by norm_num)
     (by intro h; cases h) (by norm_num),
   c3_alert_factory_severity.2.2.2.1 AlertType.multipleAttacks 0.3 (by norm_num)
     (by intro h; cases h),
   c3_alert_factory_severity.2.2.2.2.2⟩

/-- C8 counterexample: the periodic cleanup does not clear the per-source-IP
attack counters that same_ip_count reads.  The cleanup task clears only the
alert_counts map; an ip_alert_counts entry of 3 survives a cleanup run
unchanged instead of being reset to zero as claimed. -/
theorem c8_counterexample :
    ¬ ((cleanupOnce
        { ip_alert_counts := fun ip => if ip = "10.0.0.1" then 3 else 0 }).ip_alert_counts
          "10.0.0.1" = 0) := by
  decide

/-- C8 amended: every run of the periodic cleanup clears the (otherwise
unused) alert_counts map while leaving the per-source-IP attack counters
ip_alert_counts, the per-port counters and the port histories unchanged;
running it twice in succession is idempotent and never errors (the
operation is total). -/
theorem c8_periodic_cleanup_amended (st : TrackerState) :
    (cleanupOnce st).alert_counts = (fun _ => 0)
    ∧ (cleanupOnce st).ip_alert_counts = st.ip_alert_counts
    ∧ (cleanupOnce st).port_alert_counts = st.port_alert_counts
    ∧ (cleanupOnce st).ip_port_history = st.ip_port_history
    ∧ cleanupOnce (cleanupOnce st) = cleanupOnce st :=
  ⟨rfl, rfl, rfl, rfl, rfl⟩

/-- C9 counterexample: the built-in default rule set installed when the
enabled-rules query comes back empty has 18 rules, not 19. -/
theorem c9_counterexample : ¬ ((loadAlertRules []).2.length = 19) := by
  decide

/-- C9 amended: whenever the persistent rule query returns no enabled
rules, the engine installs and writes back the fixed built-in default rule
set of exactly 18 predefined rules, whose ids cover threat detection,
zero-day, brute force, port scan, DDoS, geo-risk, malware, ransomware,
exfiltration, privilege escalation, lateral movement, phishing, recon and
unauthorized access; a non-empty query installs the queried rules and
writes nothing back. -/
theorem c9_default_rules_amended :
    (loadAlertRules []).2 = defaultRules
    ∧ (loadAlertRules []).1 = defaultRules.map (fun r => (r.id, r))
    ∧ defaultRules.length = 18
    ∧ defaultRules.map (fun r => r.id) =
        ["threat_detection", "high_confidence_threat", "multiple_attacks_same_ip",
         "suspicious_ports", "zero_day_detection", "brute_force_detection",
         "ssh_brute_force_detection", "port_scan_detection", "ddos_detection",
         "suspicious_country", "malware_traffic", "ransomware_behavior",
         "data_exfiltration", "privilege_escalation", "lateral_movement",
         "phishing_attempt", "internal_recon", "unauthorized_access"]
    ∧ (∀ (r : AlertRule) (rs : List AlertRule), (loadAlertRules (r :: rs)).2 = []) := by
  refine ⟨rfl, rfl, rfl, by decide, ?_⟩
  intro r rs
  unfold loadAlertRules
  rw [if_neg]
  have hgrow : ∀ (l : List AlertRule) (m : List (String × AlertRule)),
      m.length ≤ (l.foldl (fun m r => dictInsert m r.id r) m).length := by
    intro l
    induction l with
    | nil => intro m; simp [List.foldl]
    | cons hd tl ih =>
      intro m
      calc m.length ≤ (dictInsert m hd.id hd).length := by
            unfold dictInsert
            split
            · rw [List.length_map]
            · rw [List.length_append]
              omega
        _ ≤ _ := ih (dictInsert m hd.id hd)
  have h1 : (1 : Nat) ≤ (((r :: rs).foldl (fun m r => dictInsert m r.id r) []).length) := by
    have : ((r :: rs).foldl (fun m r => dictInsert m r.id r) []) =
        rs.foldl (fun m r => dictInsert m r.id r) (dictInsert [] r.id r) := rfl
    rw [this]
    have h2 := hgrow rs (dictInsert [] r.id r)
    have h3 : (dictInsert ([] : List (String × AlertRule)) r.id r).length = 1 := rfl
    omega
  intro hemp
  rw [List.isEmpty_iff] at hemp
  rw [hemp] at h1
  simp at h1

/-- C6 counterexample: destination port 9999 is not unmapped by the port
table; it sits in the Reverse Shell entry, so with protocol TCP, no
explicit label and a port-history length of 6 the classifier returns
Reverse Shell, not Port Scan as claimed. -/
theorem c6_counterexample :
    ¬ (deriveAttackType none (some "TCP") 9999 none 6 = some "Port Scan") := by
  decide

/-- C6 amended: for a positive detection with no explicit label and
protocol TCP, destination port 22 yields SSH Brute Force; destination port
9999 is mapped by the Reverse Shell entry of the port table and yields
Reverse Shell regardless of history; a genuinely unmapped port such as
10000 yields Port Scan when the port-history length exceeds 5 (e.g. 6) and
no label at history length 2; matching is first-match-wins over the
explicitly ordered table, so port 443 yields Tomcat although it also
appears in later entries. -/
theorem c6_attack_type_classifier_amended :
    (∀ (flags : Option String) (histLen : Nat),
      deriveAttackType none (some "TCP") 22 flags histLen = some "SSH Brute Force")
    ∧ (∀ (flags : Option String) (histLen : Nat),
      deriveAttackType none (some "TCP") 9999 flags histLen = some "Reverse Shell")
    ∧ (∀ histLen : Nat, 5 < histLen →
      deriveAttackType none (some "TCP") 10000 none histLen = some "Port Scan")
    ∧ deriveAttackType none (some "TCP") 10000 none 2 = none
    ∧ deriveAttackType none (some "TCP") 443 none 9 = some "Tomcat" := by
  refine ⟨?_, ?_, ?_, by decide, by decide⟩
  · intro flags histLen
    unfold deriveAttackType portAttackType
    rw [if_pos ⟨Or.inl rfl, Or.inl rfl⟩, if_pos (by decide)]
  · intro flags histLen
    unfold deriveAttackType portAttackType
    rw [if_pos ⟨Or.inl rfl, Or.inl rfl⟩, if_neg (by decide), if_neg (by decide),
      if_pos (by decide)]
  · intro histLen h
    unfold deriveAttackType portAttackType
    rw [if_pos ⟨Or.inl rfl, Or.inl rfl⟩]
    rw [if_neg (by decide), if_neg (by decide), if_neg (by decide), if_neg (by decide),
      if_neg (by decide), if_neg (by decide), if_neg (by decide), if_neg (by decide),
      if_neg (by decide), if_neg (by decide), if_neg (by decide), if_neg (by decide),
      if_neg (by decide), if_neg (by decide), if_neg (by decide), if_neg (by decide),
      if_neg (by decide), if_neg (by decide), if_neg (by decide), if_neg (by decide),
      if_neg (by decide), if_neg (by decide), if_neg (by decide)]
    rw [if_pos ⟨by decide, h⟩]

/-- Witness for C6 amended at concrete flag values and history lengths. -/
theorem c6_attack_type_classifier_amended_witness :
    deriveAttackType none (some "TCP") 22 none 0 = some "SSH Brute Force"
    ∧ deriveAttackType none (some "TCP") 9999 none 6 = some "Reverse Shell"
    ∧ (5 < 6 ∧ deriveAttackType none (some "TCP") 10000 none 6 = some "Port Scan") :=
  ⟨c6_attack_type_classifier_amended.1 none 0,
   c6_attack_type_classifier_amended.2.1 none 6,
   by norm_num,
   c6_attack_type_classifier_amended.2.2.1 6 (by norm_num)⟩

/-- C5 counterexample: a rule whose only condition is same_ip_count (the
default multiple_attacks_same_ip rule with threshold 5) matches an attack
event that carries no source IP at all (no src_ip, no interface, so
_extract_source_ip returns None): the condition is skipped rather than
treated as non-matching, and process_detection_result reports the rule as
matched, so the rule fires. -/
theorem c5_counterexample :
    (processDetectionResult
      [{ id := "multiple_attacks_same_ip", alert_type := AlertType.multipleAttacks,
         conditions := { same_ip_count := some 5 },
         actions := ["websocket", "log", "store"] }]
      [] {} { result := { prediction := some (PredVal.str "Attack") } } 0 "r" "a").2.1 =
    [{ id := "multiple_attacks_same_ip", alert_type := AlertType.multipleAttacks,
       conditions := { same_ip_count := some 5 },
       actions := ["websocket", "log", "store"] }] := by
  decide

/-- C5 amended: on an event missing the field a condition needs, only the
ports condition fails closed: a missing destination port (the evaluator
extracts the port from the feature vector) makes a ports condition
non-matching, so such a rule cannot fire.  The same_ip_count condition
with a missing source IP and the repeat_count condition with a missing
destination port are skipped instead (treated as matching), so such rules
can still fire.  In every case evaluation is a total function: no
exception is raised. -/
theorem c5_missing_fields_amended :
    (∀ (mt : List (String × ℚ)) (ipc : String → Nat) (pc : Nat → Nat)
      (rule : AlertRule) (dd : DetectionData) (result : ModelResult)
      (features : List ℚ) (randIp : String) (ps : List Nat),
      rule.conditions.ports = some ps → extractTargetPort features = none →
      checkRuleConditions mt ipc pc rule dd result features randIp = false)
    ∧ (∀ (mt : List (String × ℚ)) (ipc : String → Nat) (pc : Nat → Nat)
      (rule : AlertRule) (dd : DetectionData) (result : ModelResult)
      (features : List ℚ) (randIp : String) (n : Nat),
      rule.threshold = none → rule.conditions = { same_ip_count := some n } →
      extractSourceIp dd.interface randIp = none →
      checkRuleConditions mt ipc pc rule dd result features randIp = true)
    ∧ (∀ (mt : List (String × ℚ)) (ipc : String → Nat) (pc : Nat → Nat)
      (rule : AlertRule) (dd : DetectionData) (result : ModelResult)
      (features : List ℚ) (randIp : String) (n : Nat),
      rule.threshold = none → rule.conditions = { repeat_count := some n } →
      extractTargetPort features = none →
      checkRuleConditions mt ipc pc rule dd result features randIp = true) := by
  refine ⟨?_, ?_, ?_⟩
  · intro mt ipc pc rule dd result features randIp ps hports hport
    unfold checkRuleConditions
    rw [hports, hport]
    simp
  · intro mt ipc pc rule dd result features randIp n hth hcond hsrc
    unfold checkRuleConditions
    rw [hth, hcond, hsrc]
    simp
  · intro mt ipc pc rule dd result features randIp n hth hcond hport
    unfold checkRuleConditions
    rw [hth, hcond, hport]
    simp

/-- Witness for C5 amended at concrete rules and events. -/
theorem c5_missing_fields_amended_witness :
    checkRuleConditions [] (fun _ => 0) (fun _ => 0)
      { id := "suspicious_ports", alert_type := AlertType.highRiskPort,
        conditions := { ports := some [22, 23, 80] } } {} {} [] "r" = false
    ∧ checkRuleConditions [] (fun _ => 0) (fun _ => 0)
      { id := "multiple_attacks_same_ip", alert_type := AlertType.multipleAttacks,
        conditions := { same_ip_count := some 5 } } {} {} [] "r" = true
    ∧ checkRuleConditions [] (fun _ => 0) (fun _ => 0)
      { id := "brute_force_variant", alert_type := AlertType.bruteForce,
        conditions := { repeat_count := some 5 } } {} {} [] "r" = true :=
  ⟨c5_missing_fields_amended.1 [] (fun _ => 0) (fun _ => 0) _ {} {} [] "r"
     [22, 23, 80] rfl rfl,
   c5_missing_fields_amended.2.1 [] (fun _ => 0) (fun _ => 0) _ {} {} [] "r"
     5 rfl rfl rfl,
   c5_missing_fields_amended.2.2 [] (fun _ => 0) (fun _ => 0) _ {} {} [] "r"
     5 rfl rfl rfl⟩

/-- C10: every alert the Port-Scan Aggregator synthesizes carries rule_id
"port_scan_rule"; that id is not among the default rules, is absent from
the rule store built from an empty query, and stays absent under the rule
management operations (create assigns a 36-character uuid4, update
re-stores under the original key, delete only removes).  Consequently the
dispatcher's rule lookup misses for such an alert and step 4 executes no
action at all: the alert is appended to the ring buffer and persisted with
a created history entry, but nothing is broadcast and no log-action
warning is emitted. -/
theorem c10_port_scan_rule_never_dispatched :
    "port_scan_rule" ∉ defaultRules.map (fun r => r.id)
    ∧ dictGet (loadAlertRules []).1 "port_scan_rule" = none
    ∧ (∀ (st : TrackerState) (dd : DetectionData)
        (sip dip proto : Option String) (now : Int) (randIp aid : String)
        (st' : TrackerState) (a : Alert),
        checkPortScanRule st dd sip dip proto now randIp aid = (st', some a) →
        a.rule_id = "port_scan_rule")
    ∧ (∀ (rules : List (String × AlertRule)) (rule : AlertRule) (uuid : String),
        uuid.length = 36 → dictGet rules "port_scan_rule" = none →
        dictGet (createAlertRule rules rule uuid) "port_scan_rule" = none)
    ∧ (∀ (rules : List (String × AlertRule)) (rule_id : String)
        (upd : AlertRule → AlertRule), dictGet rules "port_scan_rule" = none →
        dictGet (updateRule rules rule_id upd) "port_scan_rule" = none)
    ∧ (∀ (rules : List (String × AlertRule)) (rule_id : String),
        dictGet rules "port_scan_rule" = none →
        dictGet (deleteRule rules rule_id) "port_scan_rule" = none)
    ∧ (∀ (st : DispatchState) (now : Int) (a : Alert),
        dictGet st.alert_rules "port_scan_rule" = none →
        a.rule_id = "port_scan_rule" →
        processAlert st now a =
          ({ st with
             recent_alerts := dequeAppend 1000 st.recent_alerts a
             db_alerts := st.db_alerts ++ [a]
             db_history := st.db_history ++
               [{ alert_id := a.id, action := "created", timestamp := now }] },
           { broadcasts := [], log_warnings := [], email_logs := [] })) := by
  refine ⟨by decide, by decide, ?_, ?_, ?_, ?_, ?_⟩
  · intro st dd sip dip proto now randIp aid st' a h
    unfold checkPortScanRule at h
    rcases hm : pyOrStr sip (extractSourceIp dd.interface randIp) with _ | ip
    · rw [hm] at h
      simp at h
    · rw [hm] at h
      simp only [] at h
      by_cases h10 : 10 ≤ ((((st.ip_port_history ip).filter
          (fun pt => now - pt.2 ≤ 10)).map Prod.fst).dedup).length
      · rw [if_pos h10] at h
        have h2 := congrArg Prod.snd h
        simp only [] at h2
        have h3 := Option.some.inj h2
        rw [← h3]
      · rw [if_neg h10] at h
        have h2 := congrArg Prod.snd h
        simp at h2
  · intro rules rule uuid hu hnone
    unfold createAlertRule
    rw [dictGet_dictInsert_ne]
    · exact hnone
    · intro hh
      rw [← hh] at hu
      exact absurd hu (by decide)
  · intro rules rule_id upd hnone
    unfold updateRule
    rcases hg : dictGet rules rule_id with _ | r
    · exact hnone
    · by_cases hid : ("port_scan_rule" : String) = rule_id
      · rw [← hid] at hg
        rw [hnone] at hg
        cases hg
      · rw [dictGet_dictInsert_ne _ _ _ _ hid]
        exact hnone
  · intro rules rule_id hnone
    unfold deleteRule
    apply dictGet_none_of_forall
    intro p hp
    exact forall_of_dictGet_none rules _ hnone p (List.mem_of_mem_filter hp)
  · intro st now a hnone hrid
    unfold processAlert
    rw [hrid, hnone]

/-- Witness for C10 at a concrete state, alert and uuid. -/
theorem c10_port_scan_rule_never_dispatched_witness :
    processAlert sampleDispatchState 7 samplePortScanAlert =
      ({ sampleDispatchState with
          recent_alerts := dequeAppend 1000 sampleDispatchState.recent_alerts samplePortScanAlert
          db_alerts := sampleDispatchState.db_alerts ++ [samplePortScanAlert]
          db_history := sampleDispatchState.db_history ++
            [{ alert_id := samplePortScanAlert.id, action := "created", timestamp := 7 }] },
       { broadcasts := [], log_warnings := [], email_logs := [] })
    ∧ dictGet (createAlertRule [] sampleThreatRule
        "0123456789abcdef0123456789abcdef0123") "port_scan_rule" = none :=
  ⟨c10_port_scan_rule_never_dispatched.2.2.2.2.2.2 sampleDispatchState 7
     samplePortScanAlert rfl rfl,
   c10_port_scan_rule_never_dispatched.2.2.2.1 [] sampleThreatRule
     "0123456789abcdef0123456789abcdef0123" rfl rfl⟩

theorem checkPortScanRule_preserves_counts (st : TrackerState)
    (dd : DetectionData) (sip dip proto : Option String) (now : Int)
    (randIp aid : String) :
    (checkPortScanRule st dd sip dip proto now randIp aid).1.ip_alert_counts =
      st.ip_alert_counts := by
  unfold checkPortScanRule
  rcases pyOrStr sip (extractSourceIp dd.interface randIp) with _ | ip
  · rfl
  · dsimp only
    split <;> rfl

theorem processAlert_fst (st : DispatchState) (now : Int) (alert : Alert) :
    (processAlert st now alert).1 =
      { st with recent_alerts := dequeAppend 1000 st.recent_alerts alert
                db_alerts := st.db_alerts ++ [alert]
                db_history := st.db_history ++ [{ alert_id := alert.id, action := "created", timestamp := now }] } := by
  unfold processAlert
  cases dictGet st.alert_rules alert.rule_id <;> rfl

theorem processAlert_snd_some (st : DispatchState) (now : Int) (alert : Alert)
    (rule : AlertRule) (h : dictGet st.alert_rules alert.rule_id = some rule) :
    (processAlert st now alert).2 =
      executeAlertActions (dequeAppend 1000 st.recent_alerts alert) now alert rule.actions := by
  unfold processAlert
  rw [h]

theorem runDetections_nil (rules : List AlertRule) (mt : List (String × ℚ))
    (st : TrackerState) (randIp psId : String) :
    runDetections rules mt st [] randIp psId = (st, []) := rfl

theorem runDetections_cons (rules : List AlertRule) (mt : List (String × ℚ))
    (st : TrackerState) (ev : DetectionData × Int)
    (rest : List (DetectionData × Int)) (randIp psId : String) :
    runDetections rules mt st (ev :: rest) randIp psId =
      ((runDetections rules mt
          (processDetectionResult rules mt st ev.1 ev.2 randIp psId).1 rest randIp psId).1,
       (processDetectionResult rules mt st ev.1 ev.2 randIp psId).2.2.toList ++
         (runDetections rules mt
           (processDetectionResult rules mt st ev.1 ev.2 randIp psId).1 rest randIp psId).2) := rfl

theorem runDetections_append (rules : List AlertRule) (mt : List (String × ℚ))
    (randIp psId : String) :
    ∀ (l1 l2 : List (DetectionData × Int)) (st : TrackerState),
    runDetections rules mt st (l1 ++ l2) randIp psId =
      ((runDetections rules mt (runDetections rules mt st l1 randIp psId).1 l2 randIp psId).1,
       (runDetections rules mt st l1 randIp psId).2 ++
         (runDetections rules mt (runDetections rules mt st l1 randIp psId).1 l2 randIp psId).2) := by
  intro l1
  induction l1 with
  | nil =>
    intro l2 st
    rw [runDetections_nil]
    simp
  | cons e rest ih =>
    intro l2 st
    rw [List.cons_append, runDetections_cons, runDetections_cons,
      ih l2 (processDetectionResult rules mt st e.1 e.2 randIp psId).1]
    simp

/-- The distinct-recent-port count of _check_port_scan_rule once the
current event's (port, time) pair has been appended to the IP's history:
the number of distinct ports among the history entries inside the trailing
10-second window. -/
def distinctRecentCount (hist : List (Nat × Int)) (p : Nat) (now : Int) : Nat :=
  ((((dequeAppend 20 hist (p, now)).filter
      (fun pt => now - pt.2 ≤ 10)).map Prod.fst).dedup).length

theorem attack_step_no_fire (rules : List AlertRule) (mt : List (String × ℚ))
    (st : TrackerState) (ip : String) (p : Nat) (now : Int) (randIp psId : String)
    (hip : ip ≠ "") (hp : p ≠ 0)
    (hD : ¬ 10 ≤ distinctRecentCount (st.ip_port_history ip) p now) :
    (processDetectionResult rules mt st (attackEvent ip p) now randIp psId).2.2 = none
    ∧ (processDetectionResult rules mt st (attackEvent ip p) now randIp psId).1.ip_port_history ip =
      dequeAppend 20 (st.ip_port_history ip) (p, now) := by
  unfold distinctRecentCount at hD
  have hsrc : pyOrStr (some ip) (extractSourceIp none randIp) = some ip := by
    unfold pyOrStr
    dsimp only
    rw [if_neg hip]
  have htp : pyOrPort (some p) (pyOrPort none (extractTargetPort ([] : List ℚ))) = some p := by
    unfold pyOrPort
    dsimp only
    rw [if_neg hp]
  unfold processDetectionResult attackEvent
  dsimp only
  rw [if_pos (by decide), hsrc, htp]
  dsimp only
  rw [if_neg hip, if_neg hp, if_pos (And.intro hip hp)]
  unfold checkPortScanRule
  dsimp only
  rw [hsrc]
  dsimp only
  simp only [updFn, eq_self_iff_true, if_true]
  rw [if_neg hD]
  exact ⟨rfl, by simp [updFn]⟩

theorem attack_step_fire (rules : List AlertRule) (mt : List (String × ℚ))
    (st : TrackerState) (ip : String) (p : Nat) (now : Int) (randIp psId : String)
    (hip : ip ≠ "") (hp : p ≠ 0)
    (hD : 10 ≤ distinctRecentCount (st.ip_port_history ip) p now) :
    (∃ a : Alert,
      (processDetectionResult rules mt st (attackEvent ip p) now randIp psId).2.2 = some a
      ∧ a.rule_id = "port_scan_rule" ∧ a.level = AlertLevel.high
      ∧ a.attack_type = some "Port Scan" ∧ a.confidence = some 1
      ∧ a.model = some "Rule-based")
    ∧ (processDetectionResult rules mt st (attackEvent ip p) now randIp psId).1.ip_port_history ip = [] := by
  unfold distinctRecentCount at hD
  have hsrc : pyOrStr (some ip) (extractSourceIp none randIp) = some ip := by
    unfold pyOrStr
    dsimp only
    rw [if_neg hip]
  have htp : pyOrPort (some p) (pyOrPort none (extractTargetPort ([] : List ℚ))) = some p := by
    unfold pyOrPort
    dsimp only
    rw [if_neg hp]
  unfold processDetectionResult attackEvent
  dsimp only
  rw [if_pos (by decide), hsrc, htp]
  dsimp only
  rw [if_neg hip, if_neg hp, if_pos (And.intro hip hp)]
  unfold checkPortScanRule
  dsimp only
  rw [hsrc]
  dsimp only
  simp only [updFn, eq_self_iff_true, if_true]
  rw [if_pos hD]
  exact ⟨⟨_, rfl, rfl, rfl, rfl, rfl, rfl⟩, by simp [updFn]⟩

theorem run_no_fire (rules : List AlertRule) (mt : List (String × ℚ))
    (ip randIp psId : String) (hip : ip ≠ "") :
    ∀ (evs pre : List (Nat × Int)) (st : TrackerState),
    st.ip_port_history ip = pre →
    ((pre ++ evs).map Prod.fst).Nodup →
    (∀ q ∈ (pre ++ evs).map Prod.fst, q ≠ 0) →
    (∀ t ∈ (pre ++ evs).map Prod.snd, ∀ t' ∈ (pre ++ evs).map Prod.snd, t - t' ≤ 10) →
    (pre ++ evs).length ≤ 9 →
    (runDetections rules mt st (evs.map (fun pt => (attackEvent ip pt.1, pt.2))) randIp psId).2 = []
    ∧ (runDetections rules mt st (evs.map (fun pt => (attackEvent ip pt.1, pt.2))) randIp psId).1.ip_port_history ip
        = pre ++ evs := by
  intro evs
  induction evs with
  | nil =>
    intro pre st hpre _ _ _ _
    rw [List.map_nil, runDetections_nil]
    exact ⟨rfl, by rw [hpre, List.append_nil]⟩
  | cons e rest IH =>
    intro pre st hpre hnodup h0 hwin hlen
    obtain ⟨p, t⟩ := e
    have hp : p ≠ 0 := h0 p (by simp)
    have hlen' : pre.length + (rest.length + 1) ≤ 9 := by
      rw [List.length_append, List.length_cons] at hlen
      omega
    have hdq : dequeAppend 20 (st.ip_port_history ip) (p, t) = pre ++ [(p, t)] := by
      rw [hpre]
      exact dequeAppend_of_lt 20 _ _ (by omega)
    have hsnd : ∀ a ∈ pre ++ [(p, t)], a.2 ∈ (pre ++ (p, t) :: rest).map Prod.snd := by
      intro a ha
      rcases List.mem_append.mp ha with h | h
      · exact List.mem_map_of_mem Prod.snd (List.mem_append_left _ h)
      · have ha2 : a = (p, t) := by simpa using h
        subst ha2
        exact List.mem_map_of_mem Prod.snd (List.mem_append_right _ (by simp))
    have ht : t ∈ (pre ++ (p, t) :: rest).map Prod.snd := by
      apply List.mem_map.mpr
      exact ⟨(p, t), List.mem_append_right _ (by simp), rfl⟩
    have hfilter : (pre ++ [(p, t)]).filter (fun pt => decide (t - pt.2 ≤ 10)) =
        pre ++ [(p, t)] := by
      apply List.filter_eq_self.mpr
      intro a ha
      simp only [decide_eq_true_eq]
      exact hwin t ht a.2 (hsnd a ha)
    have hsub : List.Sublist ((pre ++ [(p, t)]).map Prod.fst)
        ((pre ++ (p, t) :: rest).map Prod.fst) := by
      apply List.Sublist.map
      apply List.Sublist.append_left
      exact (List.nil_sublist rest).cons₂ (p, t)
    have hnodup1 : ((pre ++ [(p, t)]).map Prod.fst).Nodup := hnodup.sublist hsub
    have hdedup : (((pre ++ [(p, t)]).map Prod.fst).dedup) = (pre ++ [(p, t)]).map Prod.fst :=
      List.dedup_eq_self.mpr hnodup1
    have hD : ¬ 10 ≤ distinctRecentCount (st.ip_port_history ip) p t := by
      unfold distinctRecentCount
      rw [hdq, hfilter, hdedup, List.length_map, List.length_append,
        List.length_singleton]
      omega
    have hstep := attack_step_no_fire rules mt st ip p t randIp psId hip hp hD
    have hassoc : (pre ++ [(p, t)]) ++ rest = pre ++ (p, t) :: rest := by simp
    have hIH := IH (pre ++ [(p, t)])
      (processDetectionResult rules mt st (attackEvent ip p) t randIp psId).1
      (by rw [hstep.2, hdq])
      (by rw [hassoc]; exact hnodup)
      (by rw [hassoc]; exact h0)
      (by rw [hassoc]; exact hwin)
      (by rw [hassoc]; exact hlen)
    rw [List.map_cons]
    dsimp only
    rw [runDetections_cons]
    dsimp only
    refine ⟨?_, ?_⟩
    · rw [hstep.1, hIH.1]
      rfl
    · rw [hIH.2, hassoc]

set_option maxHeartbeats 2000000 in
/-- C1: for every sequence of 10 attack events from one source IP carrying
10 distinct non-zero destination ports, all arrival times within a common
10-second window, starting from an empty port history: exactly one
port-scan alert fires, with rule_id "port_scan_rule", severity High,
attack-type "Port Scan", confidence 1.0 and model "Rule-based"; the IP's
port history is cleared when it fires, so an 11th attack event does not
re-trigger; and the port-scan check also runs on non-attack events (a
non-attack event whose source IP already shows 10 distinct recent ports
fires the alert, the non-attack path checking the history before appending
the current event's port). -/
theorem c1_port_scan_aggregator (rules : List AlertRule)
    (mt : List (String × ℚ)) (st0 : TrackerState) (ip : String)
    (evs : List (Nat × Int)) (randIp psId : String)
    (hip : ip ≠ "")
    (hlen : evs.length = 10)
    (hnodup : (evs.map Prod.fst).Nodup)
    (h0 : ∀ q ∈ evs.map Prod.fst, q ≠ 0)
    (hwin : ∀ t ∈ evs.map Prod.snd, ∀ t' ∈ evs.map Prod.snd, t - t' ≤ 10)
    (hinit : st0.ip_port_history ip = []) :
    (∃ a : Alert,
      (runDetections rules mt st0 (evs.map (fun pt => (attackEvent ip pt.1, pt.2))) randIp psId).2 = [a]
      ∧ a.rule_id = "port_scan_rule" ∧ a.level = AlertLevel.high
      ∧ a.attack_type = some "Port Scan" ∧ a.confidence = some 1
      ∧ a.model = some "Rule-based")
    ∧ (runDetections rules mt st0 (evs.map (fun pt => (attackEvent ip pt.1, pt.2))) randIp psId).1.ip_port_history ip = []
    ∧ (∀ (p11 : Nat) (t11 : Int), p11 ≠ 0 →
        (processDetectionResult rules mt
          (runDetections rules mt st0 (evs.map (fun pt => (attackEvent ip pt.1, pt.2))) randIp psId).1
          (attackEvent ip p11) t11 randIp psId).2.2 = none)
    ∧ (∀ (st : TrackerState) (dd : DetectionData) (now : Int) (s : String),
        dd.result.prediction = some (PredVal.str "Normal") →
        dd.src_ip = some s → s ≠ "" →
        10 ≤ ((((st.ip_port_history s).filter (fun pt => now - pt.2 ≤ 10)).map Prod.fst).dedup).length →
        ((processDetectionResult rules mt st dd now randIp psId).2.2).isSome = true) := by
  have hsplit : evs.take 9 ++ evs.drop 9 = evs := List.take_append_drop 9 evs
  have hlen9 : (evs.take 9).length = 9 := by
    rw [List.length_take, hlen]
    decide
  have hlend : (evs.drop 9).length = 1 := by
    rw [List.length_drop, hlen]
  obtain ⟨e10, he10⟩ : ∃ e, evs.drop 9 = [e] := by
    rcases hdd : evs.drop 9 with _ | ⟨e, rest2⟩
    · rw [hdd] at hlend
      simp at hlend
    · rw [hdd, List.length_cons] at hlend
      have hr2 : rest2 = [] := List.length_eq_zero.mp (by omega)
      exact ⟨e, by rw [hr2]⟩
  obtain ⟨p10, t10⟩ := e10
  have hfull : evs.take 9 ++ [(p10, t10)] = evs := by
    rw [← he10]
    exact hsplit
  have he10mem : (p10, t10) ∈ evs := by
    rw [← hfull]
    exact List.mem_append_right _ (by simp)
  have hp10 : p10 ≠ 0 := h0 p10 (List.mem_map_of_mem Prod.fst he10mem)
  have htake_sub : List.Sublist (evs.take 9) evs := List.take_sublist 9 evs
  obtain ⟨h9a, h9b⟩ := run_no_fire rules mt ip randIp psId hip (evs.take 9) [] st0
    hinit
    (hnodup.sublist (List.Sublist.map Prod.fst (by simpa using htake_sub)))
    (fun q hq => h0 q ((List.Sublist.map Prod.fst (by simpa using htake_sub)).subset hq))
    (fun t htm t' htm' => hwin t
      ((List.Sublist.map Prod.snd (by simpa using htake_sub)).subset htm) t'
      ((List.Sublist.map Prod.snd (by simpa using htake_sub)).subset htm'))
    (by simp only [List.nil_append]; exact le_of_eq hlen9)
  have h9b' : (runDetections rules mt st0
      ((evs.take 9).map (fun pt => (attackEvent ip pt.1, pt.2))) randIp psId).1.ip_port_history ip =
      evs.take 9 := h9b
  have hD10 : 10 ≤ distinctRecentCount
      ((runDetections rules mt st0
        ((evs.take 9).map (fun pt => (attackEvent ip pt.1, pt.2))) randIp psId).1.ip_port_history ip)
      p10 t10 := by
    unfold distinctRecentCount
    rw [h9b']
    rw [dequeAppend_of_lt 20 _ _ (by omega), hfull]
    have ht10 : t10 ∈ evs.map Prod.snd := List.mem_map_of_mem Prod.snd he10mem
    have hfiltall : evs.filter (fun pt => decide (t10 - pt.2 ≤ 10)) = evs := by
      apply List.filter_eq_self.mpr
      intro a ha
      simp only [decide_eq_true_eq]
      exact hwin t10 ht10 a.2 (List.mem_map_of_mem Prod.snd ha)
    rw [hfiltall, List.dedup_eq_self.mpr hnodup, List.length_map, hlen]
  have hfire := attack_step_fire rules mt
    (runDetections rules mt st0
      ((evs.take 9).map (fun pt => (attackEvent ip pt.1, pt.2))) randIp psId).1
    ip p10 t10 randIp psId hip hp10 hD10
  obtain ⟨⟨a, ha, harid, halev, haty, haconf, hamod⟩, hfirehist⟩ := hfire
  have hmapsplit : evs.map (fun pt => (attackEvent ip pt.1, pt.2)) =
      (evs.take 9).map (fun pt => (attackEvent ip pt.1, pt.2)) ++
        [(attackEvent ip p10, t10)] := by
    conv_lhs => rw [← hfull]
    rw [List.map_append]
    rfl
  have hkey : runDetections rules mt st0
      (evs.map (fun pt => (attackEvent ip pt.1, pt.2))) randIp psId =
      ((processDetectionResult rules mt
          (runDetections rules mt st0
            ((evs.take 9).map (fun pt => (attackEvent ip pt.1, pt.2))) randIp psId).1
          (attackEvent ip p10) t10 randIp psId).1,
       [a]) := by
    rw [hmapsplit,
      runDetections_append rules mt randIp psId
        ((evs.take 9).map (fun pt => (attackEvent ip pt.1, pt.2)))
        [(attackEvent ip p10, t10)] st0,
      runDetections_cons, runDetections_nil]
    dsimp only
    rw [h9a, ha]
    rfl
  refine ⟨⟨a, ?_, harid, halev, haty, haconf, hamod⟩, ?_, ?_, ?_⟩
  · rw [hkey]
  · rw [hkey]
    exact hfirehist
  · intro p11 t11 hp11
    have hd11 : ¬ 10 ≤ distinctRecentCount
        ((runDetections rules mt st0
          (evs.map (fun pt => (attackEvent ip pt.1, pt.2))) randIp psId).1.ip_port_history ip)
        p11 t11 := by
      have hhist : (runDetections rules mt st0
          (evs.map (fun pt => (attackEvent ip pt.1, pt.2))) randIp psId).1.ip_port_history ip = [] := by
        rw [hkey]
        exact hfirehist
      unfold distinctRecentCount
      rw [hhist]
      have h1 : dequeAppend 20 ([] : List (Nat × Int)) (p11, t11) = [(p11, t11)] := rfl
      rw [h1]
      have h2 : (List.filter (fun pt => decide (t11 - pt.2 ≤ 10)) [(p11, t11)]).length ≤ 1 :=
        List.length_filter_le _ _
      have h3 := (List.dedup_sublist ((List.filter (fun pt => decide (t11 - pt.2 ≤ 10))
        [(p11, t11)]).map Prod.fst)).length_le
      rw [List.length_map] at h3
      omega
    exact (attack_step_no_fire rules mt _ ip p11 t11 randIp psId hip hp11 hd11).1
  · intro st dd now s hpredN hsrcN hsN hcountN
    have hps : pyOrStr (some s) (extractSourceIp dd.interface randIp) = some s := by
      unfold pyOrStr
      dsimp only
      rw [if_neg hsN]
    unfold processDetectionResult
    dsimp only
    rw [hpredN]
    rw [if_neg (by decide)]
    rw [hsrcN, hps]
    unfold checkPortScanRule
    dsimp only
    rw [hps]
    dsimp only
    rw [if_pos hcountN]
    rfl

/-- Witness for C1 at 10 concrete attack events with distinct ports 101
through 110 at times 0 through 9 seconds. -/
theorem c1_port_scan_aggregator_witness :
    ∃ a : Alert,
      (runDetections [] [] {}
        (([(101, 0), (102, 1), (103, 2), (104, 3), (105, 4), (106, 5), (107, 6),
           (108, 7), (109, 8), (110, 9)] : List (Nat × Int)).map
          (fun pt => (attackEvent "10.0.0.1" pt.1, pt.2))) "r" "a").2 = [a]
      ∧ a.rule_id = "port_scan_rule" ∧ a.level = AlertLevel.high
      ∧ a.attack_type = some "Port Scan" ∧ a.confidence = some 1
      ∧ a.model = some "Rule-based" :=
  (c1_port_scan_aggregator [] [] {} "10.0.0.1"
    [(101, 0), (102, 1), (103, 2), (104, 3), (105, 4), (106, 5), (107, 6),
     (108, 7), (109, 8), (110, 9)] "r" "a"
    (by decide) rfl (by decide) (by decide) (by decide) rfl).1

/-- C2: for every classification result the normalized confidence lies in
the band set 0.55, 0.60, 0.65, 0.70, 0.75, 0.85, 0.95; when a positive
threshold is known the confidence is monotonically non-decreasing in the
ratio raw value over threshold, separately for probability-kind and
anomaly-score-kind results; and a result with neither a probability nor an
anomaly score gets exactly 0.6. -/
theorem c2_confidence_normalizer :
    (∀ (mt : List (String × ℚ)) (r : ModelResult),
      calculateConfidence mt r ∈ confidenceBands)
    ∧ (∀ (mt₁ mt₂ : List (String × ℚ)) (r₁ r₂ : ModelResult) (th₁ th₂ p₁ p₂ : ℚ),
      r₁.probability = some p₁ → r₂.probability = some p₂ →
      positiveThreshold mt₁ r₁ = some th₁ → positiveThreshold mt₂ r₂ = some th₂ →
      p₁ / th₁ ≤ p₂ / th₂ →
      calculateConfidence mt₁ r₁ ≤ calculateConfidence mt₂ r₂)
    ∧ (∀ (mt₁ mt₂ : List (String × ℚ)) (r₁ r₂ : ModelResult) (th₁ th₂ s₁ s₂ : ℚ),
      r₁.probability = none → r₂.probability = none →
      r₁.anomaly_score = some s₁ → r₂.anomaly_score = some s₂ →
      positiveThreshold mt₁ r₁ = some th₁ → positiveThreshold mt₂ r₂ = some th₂ →
      s₁ / th₁ ≤ s₂ / th₂ →
      calculateConfidence mt₁ r₁ ≤ calculateConfidence mt₂ r₂)
    ∧ (∀ (mt : List (String × ℚ)) (r : ModelResult),
      r.probability = none → r.anomaly_score = none →
      calculateConfidence mt r = 0.6) := by
  refine ⟨?_, ?_, ?_, ?_⟩
  · intro mt r
    unfold calculateConfidence
    rcases hp : r.probability with _ | p
    · rcases ha : r.anomaly_score with _ | s
      · norm_num [confidenceBands]
      · rcases ht : positiveThreshold mt r with _ | th
        · dsimp only
          split_ifs <;> norm_num [confidenceBands]
        · dsimp only
          split_ifs <;> norm_num [confidenceBands]
    · rcases ht : positiveThreshold mt r with _ | th
      · dsimp only
        split_ifs <;> norm_num [confidenceBands]
      · dsimp only
        split_ifs <;> norm_num [confidenceBands]
  · intro mt₁ mt₂ r₁ r₂ th₁ th₂ p₁ p₂ hp₁ hp₂ ht₁ ht₂ hratio
    unfold calculateConfidence
    rw [hp₁, hp₂, ht₁, ht₂]
    dsimp only
    split_ifs <;> linarith
  · intro mt₁ mt₂ r₁ r₂ th₁ th₂ s₁ s₂ hp₁ hp₂ ha₁ ha₂ ht₁ ht₂ hratio
    unfold calculateConfidence
    rw [hp₁, hp₂, ha₁, ha₂, ht₁, ht₂]
    dsimp only
    split_ifs <;> linarith
  · intro mt r hp ha
    unfold calculateConfidence
    rw [hp, ha]

/-- Witness for C2 at concrete results: probability ratios 1 and 3 against
threshold 1, and the bare result with neither score. -/
theorem c2_confidence_normalizer_witness :
    calculateConfidence [] { probability := some 1, threshold := some 1 } ≤
      calculateConfidence [] { probability := some 3, threshold := some 1 }
    ∧ calculateConfidence [] {} = 0.6 :=
  ⟨c2_confidence_normalizer.2.1 [] [] { probability := some 1, threshold := some 1 }
     { probability := some 3, threshold := some 1 } 1 1 1 3 rfl rfl
     (by norm_num [positiveThreshold, getModelThreshold])
     (by norm_num [positiveThreshold, getModelThreshold])
     (by norm_num),
   c2_confidence_normalizer.2.2.2 [] {} rfl rfl⟩

/-- C4: for a rule whose only condition is same_ip_count = N (no threshold)
and an attack event whose counting and evaluation both resolve to the same
source IP (the event carries src_ip = ip and the evaluator's fabricated
random address is ip as well), the rule matches exactly when the IP's
attack counter, including the current event's increment, has reached N:
the counter is incremented before the rule pass (record-then-evaluate), so
with prior count N - 1 the rule fires and with fewer increments it does
not. -/
theorem c4_same_ip_count (mt : List (String × ℚ)) (st : TrackerState)
    (ip iface : String) (N : Nat) (rule : AlertRule) (now : Int) (psId : String)
    (hip : ip ≠ "") (hiface : iface ≠ "unknown")
    (hth : rule.threshold = none) (henabled : rule.enabled = true)
    (hcond : rule.conditions = { same_ip_count := some N }) :
    ((processDetectionResult [rule] mt st
        { src_ip := some ip, interface := some iface,
          result := { prediction := some (PredVal.str "Attack") } } now ip psId).2.1 =
      (if N ≤ st.ip_alert_counts ip + 1 then [rule] else []))
    ∧ (processDetectionResult [rule] mt st
        { src_ip := some ip, interface := some iface,
          result := { prediction := some (PredVal.str "Attack") } } now ip psId).1.ip_alert_counts ip =
      st.ip_alert_counts ip + 1 := by
  have hsrc : pyOrStr (some ip) (extractSourceIp (some iface) ip) = some ip := by
    unfold pyOrStr
    dsimp only
    rw [if_neg hip]
  have htp : pyOrPort none (pyOrPort none (extractTargetPort ([] : List ℚ))) = none := rfl
  have hcheck : checkRuleConditions mt
      (updFn st.ip_alert_counts ip (st.ip_alert_counts ip + 1))
      st.port_alert_counts rule
      { src_ip := some ip, interface := some iface,
        result := { prediction := some (PredVal.str "Attack") } }
      { prediction := some (PredVal.str "Attack") } [] ip =
      decide (N ≤ st.ip_alert_counts ip + 1) := by
    unfold checkRuleConditions
    rw [hcond, hth]
    simp only [extractSourceIp, extractTargetPort, Option.getD]
    rw [if_pos hiface]
    dsimp only
    rw [if_neg hip]
    simp [updFn]
  constructor
  · unfold processDetectionResult
    dsimp only
    rw [if_pos (by decide), hsrc, htp]
    dsimp only
    rw [if_neg hip]
    rw [List.filter_cons, List.filter_nil]
    dsimp only
    rw [henabled, hcheck]
    by_cases hN : N ≤ st.ip_alert_counts ip + 1
    · rw [if_pos hN]
      simp [hN]
    · rw [if_neg hN]
      simp [hN]
  · unfold processDetectionResult
    dsimp only
    rw [if_pos (by decide), hsrc, htp]
    dsimp only
    rw [if_neg hip]
    rw [checkPortScanRule_preserves_counts]
    simp [updFn]

/-- Witness for C4: with same_ip_count = 3 and a prior count of 2 (so the
current event is the third increment) the rule matches. -/
theorem c4_same_ip_count_witness :
    (processDetectionResult
      [{ id := "multiple_attacks_same_ip", alert_type := AlertType.multipleAttacks,
         conditions := { same_ip_count := some 3 },
         actions := ["websocket", "log", "store"] }]
      [] { ip_alert_counts := fun s => if s = "10.0.0.1" then 2 else 0 }
      { src_ip := some "10.0.0.1", interface := some "eth0",
        result := { prediction := some (PredVal.str "Attack") } } 0 "10.0.0.1" "a").2.1 =
    (if 3 ≤ (fun s => if s = "10.0.0.1" then 2 else 0) "10.0.0.1" + 1 then
      [{ id := "multiple_attacks_same_ip", alert_type := AlertType.multipleAttacks,
         conditions := { same_ip_count := some 3 },
         actions := ["websocket", "log", "store"] }] else []) :=
  (c4_same_ip_count []
    { ip_alert_counts := fun s => if s = "10.0.0.1" then 2 else 0 }
    "10.0.0.1" "eth0" 3 _ 0 "a" (by decide) (by decide) rfl rfl rfl).1

/-- C7: two alerts sharing source IP, category (alert type), severity and
model, the second processed less than 5 seconds after the first's creation
timestamp, with the first among the most recent 50 ring-buffer entries
(here the ring held at most 48 alerts before): the second alert's
websocket broadcast is suppressed while its log action still runs and its
persistence and audit history entry still happen, and both alerts sit in
the recent-alerts ring buffer afterwards. -/
theorem c7_dispatcher_dedup (st0 : DispatchState) (rule : AlertRule)
    (a1 a2 : Alert) (now1 now2 : Int)
    (hlen : st0.recent_alerts.length ≤ 48)
    (hrule : dictGet st0.alert_rules a2.rule_id = some rule)
    (hacts : rule.actions = ["websocket", "log", "store"])
    (hid : a1.id ≠ a2.id)
    (hip : a1.source_ip = a2.source_ip)
    (hty : a1.alert_type = a2.alert_type)
    (hlev : a1.level = a2.level)
    (hmod : a1.model = a2.model)
    (htime : now2 - a1.timestamp < 5) :
    (processAlert (processAlert st0 now1 a1).1 now2 a2).2.broadcasts = []
    ∧ (processAlert (processAlert st0 now1 a1).1 now2 a2).2.log_warnings = [a2.id]
    ∧ a2 ∈ (processAlert (processAlert st0 now1 a1).1 now2 a2).1.db_alerts
    ∧ ({ alert_id := a2.id, action := "created", timestamp := now2 } : HistoryEntry) ∈
        (processAlert (processAlert st0 now1 a1).1 now2 a2).1.db_history
    ∧ a1 ∈ (processAlert (processAlert st0 now1 a1).1 now2 a2).1.recent_alerts
    ∧ a2 ∈ (processAlert (processAlert st0 now1 a1).1 now2 a2).1.recent_alerts := by
  have hst1 := processAlert_fst st0 now1 a1
  have hr1 : (processAlert st0 now1 a1).1.recent_alerts = st0.recent_alerts ++ [a1] := by
    rw [hst1]
    exact dequeAppend_of_lt 1000 _ _ (by omega)
  have hrules1 : (processAlert st0 now1 a1).1.alert_rules = st0.alert_rules := by
    rw [hst1]
  have hr2 : dequeAppend 1000 (processAlert st0 now1 a1).1.recent_alerts a2 =
      (st0.recent_alerts ++ [a1]) ++ [a2] := by
    rw [hr1]
    exact dequeAppend_of_lt 1000 _ _ (by simp; omega)
  have hlast : lastN 50 ((st0.recent_alerts ++ [a1]) ++ [a2]) =
      (st0.recent_alerts ++ [a1]) ++ [a2] := by
    apply lastN_of_le
    simp
    omega
  have hpred : (fun a => decide (a.id ≠ a2.id ∧ a.source_ip = a2.source_ip ∧
      a.alert_type = a2.alert_type ∧ a.level = a2.level ∧
      a.model = a2.model ∧ now2 - a.timestamp < 5)) a1 = true := by
    simp only [decide_eq_true_eq]
    exact ⟨hid, hip, hty, hlev, hmod, htime⟩
  have hmem : a1 ∈ ((st0.recent_alerts ++ [a1]) ++ [a2]).filter
      (fun a => decide (a.id ≠ a2.id ∧ a.source_ip = a2.source_ip ∧
        a.alert_type = a2.alert_type ∧ a.level = a2.level ∧
        a.model = a2.model ∧ now2 - a.timestamp < 5)) := by
    apply List.mem_filter.mpr
    constructor
    · simp
    · exact hpred
  have hempty : (((st0.recent_alerts ++ [a1]) ++ [a2]).filter
      (fun a => decide (a.id ≠ a2.id ∧ a.source_ip = a2.source_ip ∧
        a.alert_type = a2.alert_type ∧ a.level = a2.level ∧
        a.model = a2.model ∧ now2 - a.timestamp < 5))).isEmpty = false := by
    rw [← Bool.not_eq_true, List.isEmpty_iff]
    exact List.ne_nil_of_mem hmem
  have heff : (processAlert (processAlert st0 now1 a1).1 now2 a2).2 =
      { broadcasts := [], log_warnings := [a2.id], email_logs := [] } := by
    rw [processAlert_snd_some _ _ _ rule (by rw [hrules1]; exact hrule), hacts, hr2]
    unfold executeAlertActions
    dsimp only
    rw [hlast, hempty]
    simp
  have hst2 := processAlert_fst (processAlert st0 now1 a1).1 now2 a2
  refine ⟨by rw [heff], by rw [heff], ?_, ?_, ?_, ?_⟩
  · rw [hst2]
    simp
  · rw [hst2]
    simp
  · rw [hst2]
    dsimp only
    rw [hr2]
    simp
  · rw [hst2]
    dsimp only
    rw [hr2]
    simp

/-- Witness for C7 at a concrete pair of matching alerts 2 seconds apart. -/
theorem c7_dispatcher_dedup_witness :
    (processAlert (processAlert sampleDispatchState 100
        { id := "A1", rule_id := "threat_detection",
          alert_type := AlertType.threatDetected, level := AlertLevel.high,
          source_ip := some "10.0.0.1", model := some "CNN-DNN", timestamp := 100 }).1 102
        { id := "A2", rule_id := "threat_detection",
          alert_type := AlertType.threatDetected, level := AlertLevel.high,
          source_ip := some "10.0.0.1", model := some "CNN-DNN", timestamp := 102 }).2.broadcasts = []
    ∧ (processAlert (processAlert sampleDispatchState 100
        { id := "A1", rule_id := "threat_detection",
          alert_type := AlertType.threatDetected, level := AlertLevel.high,
          source_ip := some "10.0.0.1", model := some "CNN-DNN", timestamp := 100 }).1 102
        { id := "A2", rule_id := "threat_detection",
          alert_type := AlertType.threatDetected, level := AlertLevel.high,
          source_ip := some "10.0.0.1", model := some "CNN-DNN", timestamp := 102 }).2.log_warnings = ["A2"] :=
  ⟨(c7_dispatcher_dedup sampleDispatchState sampleThreatRule
      { id := "A1", rule_id := "threat_detection",
        alert_type := AlertType.threatDetected, level := AlertLevel.high,
        source_ip := some "10.0.0.1", model := some "CNN-DNN", timestamp := 100 }
      { id := "A2", rule_id := "threat_detection",
        alert_type := AlertType.threatDetected, level := AlertLevel.high,
        source_ip := some "10.0.0.1", model := some "CNN-DNN", timestamp := 102 }
      100 102 (by decide) rfl rfl (by decide) rfl rfl rfl rfl (by decide)).1,
   (c7_dispatcher_dedup sampleDispatchState sampleThreatRule
      { id := "A1", rule_id := "threat_detection",
        alert_type := AlertType.threatDetected, level := AlertLevel.high,
        source_ip := some "10.0.0.1", model := some "CNN-DNN", timestamp := 100 }
      { id := "A2", rule_id := "threat_detection",
        alert_type := AlertType.threatDetected, level := AlertLevel.high,
        source_ip := some "10.0.0.1", model := some "CNN-DNN", timestamp := 102 }
      100 102 (by decide) rfl rfl (by decide) rfl rfl rfl rfl (by decide)).2.1⟩

end PreTechNIDS
